import Mathlib

/-!
Shallow embedding of `src/bot.py` (Aviator Prediction Telegram bot).

The embedding models the prediction/feedback core as pure functions over an
explicit session state.  Python floats are idealised as rationals (`ℚ`);
Python exceptions are modelled with `Except`; the regression model
(`RandomForestRegressor`) is modelled abstractly as the list of training sets
it has been fit on, with its numeric prediction an uninterpreted function
parameter `pf`.
-/

namespace AviatorBot

/-! ### Python string primitives -/

/-- Whitespace characters removed by Python `str.strip()`. -/
def pyIsSpace (c : Char) : Bool :=
  c = ' ' || c = '\t' || c = '\n' || c = '\x0d' || c = '\x0b' || c = '\x0c'

/-- Python `str.strip()` on a character list: drop whitespace at both ends. -/
def pyStrip (cs : List Char) : List Char :=
  ((cs.dropWhile pyIsSpace).reverse.dropWhile pyIsSpace).reverse

/-- Split a character list on a separator character, Python `str.split(sep)`:
always returns at least one (possibly empty) piece. -/
def splitOnChar (sep : Char) (cs : List Char) : List (List Char) :=
  cs.foldr
    (fun c acc =>
      if c = sep then [] :: acc
      else
        match acc with
        | [] => [[c]]
        | a :: as => (c :: a) :: as)
    [[]]

/-- Python `str.lower()`. -/
def pyLower (s : String) : String :=
  String.mk (s.data.map Char.toLower)

/-- Nonempty string of decimal digits. -/
def digitsOnly (cs : List Char) : Bool :=
  !cs.isEmpty && cs.all Char.isDigit

/-- Numeric value of a digit string (0 on the empty list). -/
def digitsVal (cs : List Char) : ℕ :=
  cs.foldl (fun a c => 10 * a + (c.toNat - 48)) 0

/-! ### Python `float()` and the bot's numeric validation regex -/

/-- Unsigned mantissa of a float literal: `digits`, `digits.digits`,
`digits.` or `.digits`. -/
def parseUnsigned (cs : List Char) : Option ℚ :=
  match splitOnChar '.' cs with
  | [a] => if digitsOnly a then some (digitsVal a) else none
  | [a, b] =>
      if a.isEmpty && b.isEmpty then none
      else if (a.isEmpty || digitsOnly a) && (b.isEmpty || digitsOnly b) then
        some ((digitsVal a : ℚ) + (digitsVal b : ℚ) / (10 : ℚ) ^ b.length)
      else none
  | _ => none

/-- Signed integer exponent of a float literal. -/
def parseExpPart (cs : List Char) : Option ℤ :=
  match cs with
  | '+' :: r => if digitsOnly r then some ((digitsVal r : ℤ)) else none
  | '-' :: r => if digitsOnly r then some (-(digitsVal r : ℤ)) else none
  | r => if digitsOnly r then some ((digitsVal r : ℤ)) else none

/-- Mantissa with optional exponent (`12.5`, `12.5e-3`, ...). -/
def parseMantExp (cs : List Char) : Option ℚ :=
  match splitOnChar 'e' cs with
  | [m] => parseUnsigned m
  | [m, e] => do
      let mv ← parseUnsigned m
      let ev ← parseExpPart e
      some (mv * (10 : ℚ) ^ ev)
  | _ => none

/-- Python `float(s)` idealised over `ℚ`: `none` models a raised
`ValueError`.  Whitespace is stripped, case is ignored, an optional sign is
followed by a decimal mantissa and optional exponent.  (The `inf`/`nan`
literals are omitted: they have no `ℚ` value and arise in none of the
verified behaviours.) -/
def pyFloat (s : String) : Option ℚ :=
  match (pyStrip s.data).map Char.toLower with
  | '+' :: r => parseMantExp r
  | '-' :: r => (parseMantExp r).map Neg.neg
  | cs => parseMantExp cs

/-- The bot's validation pattern, from `re.match` with pattern
digits, optionally followed by a dot and digits, anchored at both ends
(bot.py lines 60, 188): a non-negative decimal literal. -/
def numericRegexMatch (s : String) : Bool :=
  match splitOnChar '.' s.data with
  | [a] => digitsOnly a
  | [a, b] => digitsOnly a && digitsOnly b
  | _ => false

/-! ### Ledger entries

`historical_data` holds strings: raw comma-split user input, and for
corrective feedback `str(actual_value)` where `actual_value` is a float.
An `Entry` distinguishes the two origins so that `str` of a float need not
be rendered: `Entry.num q` stands for the decimal string printed from the
(positive, decimal-literal-born) float `q`, whose `float()` value is `q`
and which matches the non-negative-decimal pattern exactly when `0 ≤ q`. -/

inductive Entry
  | raw (s : String)
  | num (q : ℚ)
deriving DecidableEq

/-- Python `float(entry)`: `none` models a raised `ValueError`. -/
def Entry.pyFloatVal : Entry → Option ℚ
  | .raw s => pyFloat s
  | .num q => some q

/-- The validation regex applied to the entry's string form. -/
def Entry.isValidNumeric : Entry → Bool
  | .raw s => numericRegexMatch s
  | .num q => decide (0 ≤ q)

/-- Value used by code paths that parse an entry already known valid
(`float(point)` after the regex filter). -/
def entryFloat (e : Entry) : ℚ :=
  e.pyFloatVal.getD 0

/-! ### The regression model and session state -/

/-- The `RandomForestRegressor`, modelled abstractly by the full (X, y) pair
list of every `fit` call so far, in order.  Its numeric predictions are an
uninterpreted parameter `pf` of the operations below. -/
structure Model where
  fits : List (List (ℚ × ℚ))
deriving DecidableEq

/-- `model.fit(X, y)`: records one more full fit. -/
def Model.fit (m : Model) (pairs : List (ℚ × ℚ)) : Model :=
  ⟨m.fits ++ [pairs]⟩

/-- A prediction function for the regressor (uninterpreted: the claims never
depend on the numeric value predicted, only on what it is applied to). -/
abbrev PredFun := Model → ℚ → ℚ

/-- Global bot state: the module-level `historical_data` and `feedback_data`
lists, the `context.user_data` keys `predicted_value` and `feedback`
(absent = `none`), and the model. -/
structure BotState where
  historical_data : List Entry
  feedback_data : List String
  predicted_value : Option ℚ
  feedback : Option String
  model : Model
deriving DecidableEq

/-- State at startup: empty data, no pending prediction or feedback, and a
freshly constructed model with no fits. -/
def initState : BotState :=
  { historical_data := [], feedback_data := [], predicted_value := none,
    feedback := none, model := ⟨[]⟩ }

/-! ### predict_aviator_outcome (bot.py lines 56-87) -/

/-- The training pairs built from the numbers list: the data frame with
columns `numbers[:-1]` and `numbers[1:]`, i.e. consecutive pairs. -/
def trainPairs (ns : List ℚ) : List (ℚ × ℚ) :=
  ns.zip ns.tail

/-- Line 60: `[float(point) for point in crash_points if re.match(...)]`. -/
def validNumbers (crash_points : List Entry) : List ℚ :=
  (crash_points.filter Entry.isValidNumeric).map entryFloat

/-- The reply of `predict_aviator_outcome`: either the "No valid crash
points found" message, or the prediction message carrying the numbers list
and the predicted value. -/
inductive PredictReply
  | noData
  | predicted (numbers : List ℚ) (value : ℚ)
deriving DecidableEq

/-- The `predicted_value` returned alongside the message (`None` on the
no-data reply). -/
def replyPred : PredictReply → Option ℚ
  | .noData => none
  | .predicted _ v => some v

/-- `predict_aviator_outcome(crash_points)` (lines 56-87): filter the valid
numeric entries, bail out with the no-data message when none remain, fit on
all consecutive pairs when more than one remains, and predict from the last
number with the (possibly refit) model. -/
def predict_aviator_outcome (pf : PredFun) (model : Model)
    (crash_points : List Entry) : PredictReply × Model :=
  let numbers := validNumbers crash_points
  if numbers.length = 0 then (.noData, model)
  else
    let model' := if 1 < numbers.length then model.fit (trainPairs numbers) else model
    (.predicted numbers (pf model' (numbers.getLastD 0)), model')

/-! ### update_model_with_feedback (bot.py lines 91-123) -/

/-- Exceptions raised by the feedback update: `float()` on a non-numeric
ledger entry, or `.lower()` on an absent feedback value. -/
inductive PyError
  | valueError
  | attrError
deriving DecidableEq

/-- Decidable equality on `Except`, for evaluating concrete runs. -/
def exceptDecEq {ε α : Type} [DecidableEq ε] [DecidableEq α] :
    (x y : Except ε α) → Decidable (x = y)
  | .error e, .error f =>
      if h : e = f then .isTrue (congrArg Except.error h)
      else .isFalse (fun hh => h (Except.error.inj hh))
  | .error _, .ok _ => .isFalse (fun hh => Except.noConfusion hh)
  | .ok _, .error _ => .isFalse (fun hh => Except.noConfusion hh)
  | .ok a, .ok b =>
      if h : a = b then .isTrue (congrArg Except.ok h)
      else .isFalse (fun hh => h (Except.ok.inj hh))

instance {ε α : Type} [DecidableEq ε] [DecidableEq α] :
    DecidableEq (Except ε α) := exceptDecEq

/-- Line 103: the list comprehension converting every ledger entry with an
unguarded `float()`; the first non-numeric entry raises (`none`). -/
def entriesFloats : List Entry → Option (List ℚ)
  | [] => some []
  | e :: es => do
      let v ← e.pyFloatVal
      let vs ← entriesFloats es
      some (v :: vs)

/-- `update_model_with_feedback(feedback, actual_value, ...)` (lines
91-123) acting on the globals `historical_data` and `model`.  On "yes"
(case-insensitively) only a log line; on "no" appends `str(actual_value)`
to the ledger, converts every ledger entry with an unguarded `float()`
(raising `ValueError` on a non-numeric entry), and when more than one
number results refits on all consecutive pairs; any other token is logged
as invalid feedback.  The model upload is external I/O and not modelled. -/
def update_model_with_feedback (feedback : Option String) (actual_value : ℚ)
    (ledger : List Entry) (model : Model) :
    Except PyError (List Entry × Model) :=
  match feedback with
  | none => .error .attrError
  | some fb =>
    if pyLower fb = "yes" then .ok (ledger, model)
    else if pyLower fb = "no" then
      let ledger' := ledger ++ [Entry.num actual_value]
      match entriesFloats ledger' with
      | none => .error .valueError
      | some numbers =>
        if 1 < numbers.length then .ok (ledger', model.fit (trainPairs numbers))
        else .ok (ledger', model)
    else .ok (ledger, model)

/-! ### Message handlers (bot.py lines 142-195) -/

/-- `/clear` (lines 142-146): resets `historical_data` and `feedback_data`;
`user_data` and the model are untouched. -/
def clear_data (st : BotState) : BotState :=
  { st with historical_data := [], feedback_data := [] }

/-- Line 155: strip the message, split on commas, strip each piece, keep
the nonempty ones, in order. -/
def splitPoints (text : String) : List String :=
  (((splitOnChar ',' (pyStrip text.data)).map pyStrip).filter
    (fun p => !p.isEmpty)).map String.mk

/-- `process_crash_points` (lines 150-165): extend `historical_data` with
the raw comma-split points, predict over the whole ledger, and store the
returned predicted value (possibly `None`) in `user_data`. -/
def process_crash_points (pf : PredFun) (text : String) (st : BotState) :
    BotState :=
  let new_crash_points := (splitPoints text).map Entry.raw
  let hist := st.historical_data ++ new_crash_points
  let out := predict_aviator_outcome pf st.model hist
  { st with
    historical_data := hist
    model := out.2
    predicted_value := replyPred out.1 }

/-- Reply of the feedback handler. -/
inductive FeedbackReply
  | noRecentPrediction
  | askActual
deriving DecidableEq

/-- `process_feedback` (lines 169-179): with no pending prediction, report
"No recent prediction found"; otherwise store the lower-cased token and ask
for the actual value. -/
def process_feedback (text : String) (st : BotState) :
    FeedbackReply × BotState :=
  let fb := pyLower (String.mk (pyStrip text.data))
  match st.predicted_value with
  | none => (.noRecentPrediction, st)
  | some _ => (.askActual, { st with feedback := some fb })

/-- Reply of the actual-value handler. -/
inductive ActualReply
  | invalidValue
  | thanks
deriving DecidableEq

/-- `process_actual_value` (lines 183-195): reject (re-prompt, no state
change) unless the stripped text matches the numeric pattern and parses to
a positive value; otherwise run the feedback update on the globals and
thank the user.  Nothing in `user_data` is ever cleared. -/
def process_actual_value (text : String) (st : BotState) :
    Except PyError (ActualReply × BotState) :=
  let actual_value := String.mk (pyStrip text.data)
  if numericRegexMatch actual_value && decide (0 < (pyFloat actual_value).getD 0) then
    match update_model_with_feedback st.feedback ((pyFloat actual_value).getD 0)
        st.historical_data st.model with
    | .error e => .error e
    | .ok (l, m) => .ok (.thanks, { st with historical_data := l, model := m })
  else .ok (.invalidValue, st)

/-! ### Startup configuration check (bot.py lines 223-231) -/

/-- Python truthiness of an optional environment variable: absent or empty
is falsy. -/
def truthy : Option String → Bool
  | none => false
  | some s => !s.isEmpty

/-- The `init_bot` guard (line 229): initialization succeeds only when the
bot token, the channel id and the model file id are all present and
nonempty. -/
def init_bot_succeeds (token channel modelFileId : Option String) : Bool :=
  truthy token && truthy channel && truthy modelFileId

/-- The dispatch pattern for the feedback handler (line 245), the regex
anchored `(yes|no)`: a full, case-sensitive match of one of the two
lowercase tokens. -/
def feedbackRegexMatch (s : String) : Bool :=
  s = "yes" || s = "no"

/-- A concrete prediction function used by closed (counter)example runs. -/
def pfZero : PredFun := fun _ _ => 0

/-! ### Helper lemmas -/

theorem trainPairs_length (ns : List ℚ) :
    (trainPairs ns).length = ns.length - 1 := by
  simp [trainPairs]

theorem trainPairs_getD (ns : List ℚ) (i : ℕ) (h : i + 1 < ns.length) :
    (trainPairs ns).getD i (0, 0) = (ns.getD i 0, ns.getD (i + 1) 0) := by
  induction ns generalizing i with
  | nil => simp at h
  | cons a t ih =>
    cases t with
    | nil => simp at h
    | cons b t2 =>
      cases i with
      | zero => simp [trainPairs]
      | succ j =>
        have hj : j + 1 < (b :: t2).length := by
          simpa using Nat.lt_of_succ_lt_succ h
        simpa [trainPairs] using ih j hj

theorem validNumbers_of_all_valid (cps : List Entry)
    (hval : ∀ e ∈ cps, e.isValidNumeric = true) :
    validNumbers cps = cps.map entryFloat := by
  rw [validNumbers, List.filter_eq_self.mpr hval]

/-! ### Claims -/

/-- C1: for every ledger of n ≥ 2 valid numeric strings, `predict` builds
exactly n−1 training pairs (ledger[i], ledger[i+1]) for i in [0, n−2], fits
the model on them, and predicts from the last ledger value. -/
theorem spec_c1 (pf : PredFun) (m : Model) (cps : List Entry)
    (hval : ∀ e ∈ cps, e.isValidNumeric = true) (hlen : 2 ≤ cps.length) :
    (predict_aviator_outcome pf m cps).2 =
      m.fit (trainPairs (cps.map entryFloat)) ∧
    (trainPairs (cps.map entryFloat)).length = cps.length - 1 ∧
    (∀ i, i < cps.length - 1 →
      (trainPairs (cps.map entryFloat)).getD i (0, 0) =
        ((cps.map entryFloat).getD i 0, (cps.map entryFloat).getD (i + 1) 0)) ∧
    (predict_aviator_outcome pf m cps).1 =
      .predicted (cps.map entryFloat)
        (pf (m.fit (trainPairs (cps.map entryFloat)))
          ((cps.map entryFloat).getLastD 0)) := by
  have hnums := validNumbers_of_all_valid cps hval
  have hl : (cps.map entryFloat).length = cps.length := List.length_map _ _
  have h0 : ¬((cps.map entryFloat).length = 0) := by omega
  have h1 : 1 < (cps.map entryFloat).length := by omega
  refine ⟨?_, ?_, ?_, ?_⟩
  · simp only [predict_aviator_outcome, hnums, if_neg h0, if_pos h1]
  · rw [trainPairs_length, hl]
  · intro i hi
    exact trainPairs_getD _ i (by omega)
  · simp only [predict_aviator_outcome, hnums, if_neg h0, if_pos h1]

/-- C1 witness: the general theorem applied to the ledger
["2.0", "3.0", "4.0"]. -/
theorem spec_c1_witness :
    (predict_aviator_outcome pfZero ⟨[]⟩
        [Entry.raw "2.0", Entry.raw "3.0", Entry.raw "4.0"]).2 =
      Model.fit ⟨[]⟩ (trainPairs
        ([Entry.raw "2.0", Entry.raw "3.0", Entry.raw "4.0"].map entryFloat)) ∧
    (trainPairs
        ([Entry.raw "2.0", Entry.raw "3.0", Entry.raw "4.0"].map
          entryFloat)).length =
      [Entry.raw "2.0", Entry.raw "3.0", Entry.raw "4.0"].length - 1 ∧
    (∀ i, i < [Entry.raw "2.0", Entry.raw "3.0", Entry.raw "4.0"].length - 1 →
      (trainPairs
          ([Entry.raw "2.0", Entry.raw "3.0", Entry.raw "4.0"].map
            entryFloat)).getD i (0, 0) =
        (([Entry.raw "2.0", Entry.raw "3.0", Entry.raw "4.0"].map
            entryFloat).getD i 0,
          ([Entry.raw "2.0", Entry.raw "3.0", Entry.raw "4.0"].map
            entryFloat).getD (i + 1) 0)) ∧
    (predict_aviator_outcome pfZero ⟨[]⟩
        [Entry.raw "2.0", Entry.raw "3.0", Entry.raw "4.0"]).1 =
      .predicted ([Entry.raw "2.0", Entry.raw "3.0", Entry.raw "4.0"].map
          entryFloat)
        (pfZero
          (Model.fit ⟨[]⟩ (trainPairs
            ([Entry.raw "2.0", Entry.raw "3.0", Entry.raw "4.0"].map
              entryFloat)))
          (([Entry.raw "2.0", Entry.raw "3.0", Entry.raw "4.0"].map
              entryFloat).getLastD 0)) :=
  spec_c1 pfZero ⟨[]⟩ [Entry.raw "2.0", Entry.raw "3.0", Entry.raw "4.0"]
    (by decide) (by decide)

/-- C2: every fit of the model — by predict or by the corrective-feedback
path — is a full refit on the entire training-pair set derived from the
current ledger at the time of the fit call: the fit history either does not
grow, or grows by exactly the consecutive-pair set of all numbers derived
from the whole current ledger. -/
theorem spec_c2 :
    (∀ (pf : PredFun) (m : Model) (cps : List Entry),
        ((predict_aviator_outcome pf m cps).2).fits = m.fits ∨
        ((predict_aviator_outcome pf m cps).2).fits =
          m.fits ++ [trainPairs (validNumbers cps)]) ∧
    (∀ (fb : Option String) (a : ℚ) (l : List Entry) (mo : Model)
        (l' : List Entry) (mo' : Model),
        update_model_with_feedback fb a l mo = .ok (l', mo') →
        mo'.fits = mo.fits ∨
        ∃ ns, entriesFloats l' = some ns ∧
          mo'.fits = mo.fits ++ [trainPairs ns]) := by
  constructor
  · intro pf m cps
    by_cases h0 : (validNumbers cps).length = 0
    · left
      simp [predict_aviator_outcome, h0]
    · by_cases h1 : 1 < (validNumbers cps).length
      · right
        simp [predict_aviator_outcome, h0, h1, Model.fit]
      · left
        simp [predict_aviator_outcome, h0, h1]
  · intro fb a l mo l' mo' h
    match fb with
    | none => simp [update_model_with_feedback] at h
    | some s =>
      by_cases hy : pyLower s = "yes"
      · simp [update_model_with_feedback, hy] at h
        left
        rw [h.2]
      · by_cases hn : pyLower s = "no"
        · rcases hp : entriesFloats (l ++ [Entry.num a]) with _ | ns
          · simp [update_model_with_feedback, hy, hn, hp] at h
          · by_cases h1 : 1 < ns.length
            · right
              simp [update_model_with_feedback, hy, hn, hp, h1] at h
              exact ⟨ns, by rw [h.1] at hp; exact hp,
                by rw [← h.2]; simp [Model.fit]⟩
            · left
              simp [update_model_with_feedback, hy, hn, hp, h1] at h
              rw [h.2]
        · simp [update_model_with_feedback, hy, hn] at h
          left
          rw [h.2]

/-- C2 witness: the feedback half of the invariant applied to a concrete
successful corrective refit. -/
theorem spec_c2_witness :
    (⟨[[((2 : ℚ), (3 : ℚ))]]⟩ : Model).fits = (⟨[]⟩ : Model).fits ∨
    ∃ ns, entriesFloats [Entry.num 2, Entry.num 3] = some ns ∧
      (⟨[[((2 : ℚ), (3 : ℚ))]]⟩ : Model).fits =
        (⟨[]⟩ : Model).fits ++ [trainPairs ns] :=
  spec_c2.2 (some "no") 3 [Entry.num 2] ⟨[]⟩ [Entry.num 2, Entry.num 3]
    ⟨[[(2, 3)]]⟩ (by decide)

/-- C3 counterexample: with an empty ledger (reachable: predict once, then
`/clear`, which resets the ledger but not the pending prediction), feedback
"no" followed by the valid positive actual value "2" appends exactly one
element but performs zero model refits, not exactly one. -/
theorem spec_c3_counterexample :
    process_actual_value "2"
        { historical_data := [], feedback_data := [], predicted_value := some 1,
          feedback := some "no", model := ⟨[]⟩ } =
      .ok (.thanks,
        { historical_data := [Entry.num 2], feedback_data := [],
          predicted_value := some 1, feedback := some "no",
          model := ⟨[]⟩ }) := by
  decide

/-- C3 amended: feedback "yes" leaves ledger and model unchanged; feedback
"no" followed by a valid positive actual value appends exactly one element
and, provided every post-append ledger entry parses as a float, triggers
exactly one refit when the post-append ledger has at least two entries and
no refit when it has exactly one. -/
theorem spec_c3_amended :
    (∀ (a : ℚ) (l : List Entry) (m : Model),
        update_model_with_feedback (some "yes") a l m = .ok (l, m)) ∧
    (∀ (txt : String) (st : BotState) (ns : List ℚ),
        st.feedback = some "no" →
        numericRegexMatch (String.mk (pyStrip txt.data)) = true →
        0 < (pyFloat (String.mk (pyStrip txt.data))).getD 0 →
        entriesFloats (st.historical_data ++
            [Entry.num ((pyFloat (String.mk (pyStrip txt.data))).getD 0)]) =
          some ns →
        process_actual_value txt st = .ok (.thanks,
          { st with
            historical_data := st.historical_data ++
              [Entry.num ((pyFloat (String.mk (pyStrip txt.data))).getD 0)]
            model :=
              if 1 < ns.length then st.model.fit (trainPairs ns)
              else st.model })) := by
  constructor
  · intro a l m
    simp [update_model_with_feedback, pyLower]
  · intro txt st ns hfb hmatch hpos hparse
    have hcond : (numericRegexMatch (String.mk (pyStrip txt.data)) &&
        decide (0 < (pyFloat (String.mk (pyStrip txt.data))).getD 0)) = true := by
      rw [hmatch]
      simpa using hpos
    have hno : pyLower "no" = "no" := by decide
    simp only [process_actual_value, hcond, if_true, hfb,
      update_model_with_feedback, hno, hparse]
    by_cases h1 : 1 < ns.length
    · simp [h1]
    · simp [h1]

/-- C3 witness: the amended no-branch applied to a concrete ledger with one
prior entry, where the corrective append does trigger exactly one refit. -/
theorem spec_c3_witness :
    process_actual_value "3"
        { historical_data := [Entry.num 2], feedback_data := [],
          predicted_value := some 1, feedback := some "no", model := ⟨[]⟩ } =
      .ok (.thanks,
        { historical_data := [Entry.num 2] ++
            [Entry.num ((pyFloat (String.mk (pyStrip "3".data))).getD 0)],
          feedback_data := [], predicted_value := some 1,
          feedback := some "no",
          model :=
            if 1 < [(2 : ℚ), ((pyFloat (String.mk (pyStrip "3".data))).getD 0)].length then
              Model.fit ⟨[]⟩ (trainPairs
                [(2 : ℚ), ((pyFloat (String.mk (pyStrip "3".data))).getD 0)])
            else ⟨[]⟩ }) :=
  spec_c3_amended.2 "3"
    { historical_data := [Entry.num 2], feedback_data := [],
      predicted_value := some 1, feedback := some "no", model := ⟨[]⟩ }
    [(2 : ℚ), ((pyFloat (String.mk (pyStrip "3".data))).getD 0)]
    rfl (by decide) (by decide) (by decide)

/-- C4 counterexample: the bulk-append message "2, abc" makes the invalid
entry "abc" a ledger element — entries failing validation are appended, not
dropped. -/
theorem spec_c4_counterexample :
    (process_crash_points pfZero "2, abc" initState).historical_data =
      [Entry.raw "2", Entry.raw "abc"] ∧
    Entry.isValidNumeric (Entry.raw "abc") = false := by
  constructor
  · decide
  · decide

/-- C4 amended: the bulk-append operation appends all non-empty trimmed
comma-separated entries to the ledger raw and in their original order; the
non-negative decimal filter is applied only at prediction time, when the
numbers list is derived, where non-matching entries are silently dropped
(but remain ledger elements). -/
theorem spec_c4_amended :
    (∀ (pf : PredFun) (text : String) (st : BotState),
        (process_crash_points pf text st).historical_data =
          st.historical_data ++ (splitPoints text).map Entry.raw) ∧
    (∀ (pf : PredFun) (m : Model) (cps : List Entry),
        (predict_aviator_outcome pf m cps).1 = .noData ∨
        ∃ v, (predict_aviator_outcome pf m cps).1 =
          .predicted (validNumbers cps) v) := by
  constructor
  · intro pf text st
    rfl
  · intro pf m cps
    by_cases h0 : (validNumbers cps).length = 0
    · left
      simp [predict_aviator_outcome, h0]
    · right
      by_cases h1 : 1 < (validNumbers cps).length
      · exact ⟨pf (m.fit (trainPairs (validNumbers cps)))
            ((validNumbers cps).getLastD 0),
          by simp [predict_aviator_outcome, h0, h1]⟩
      · exact ⟨pf m ((validNumbers cps).getLastD 0),
          by simp [predict_aviator_outcome, h0, h1]⟩

/-- C5: an actual-value input that does not validate as a positive decimal
(the string "0", a negative number, or any other non-matching text) is
rejected with a re-prompt and the whole state — ledger and model included —
is left unchanged. -/
theorem spec_c5 (txt : String) (st : BotState)
    (h : ¬(numericRegexMatch (String.mk (pyStrip txt.data)) = true ∧
        0 < (pyFloat (String.mk (pyStrip txt.data))).getD 0)) :
    process_actual_value txt st = .ok (.invalidValue, st) := by
  have hcond : (numericRegexMatch (String.mk (pyStrip txt.data)) &&
      decide (0 < (pyFloat (String.mk (pyStrip txt.data))).getD 0)) = false := by
    rcases Bool.eq_false_or_eq_true
      (numericRegexMatch (String.mk (pyStrip txt.data))) with hm | hm
    · simp only [hm, Bool.true_and, decide_eq_false_iff_not]
      exact fun hp => h ⟨hm, hp⟩
    · simp [hm]
  simp [process_actual_value, hcond]

/-- C5 witness: the handler rejects the string "0" and leaves the initial
state unchanged. -/
theorem spec_c5_witness :
    process_actual_value "0" initState = .ok (.invalidValue, initState) :=
  spec_c5 "0" initState (by decide)

/-- C6: a ledger with zero valid numeric entries — in particular the empty
ledger left by `/clear` — makes predict return the no-valid-data reply with
a null prediction and an unchanged (never fit) model. -/
theorem spec_c6 :
    (∀ (pf : PredFun) (m : Model) (cps : List Entry),
        (∀ e ∈ cps, e.isValidNumeric = false) →
        predict_aviator_outcome pf m cps = (.noData, m) ∧
        replyPred (predict_aviator_outcome pf m cps).1 = none) ∧
    (∀ (st : BotState) (pf : PredFun),
        (clear_data st).historical_data = [] ∧
        predict_aviator_outcome pf (clear_data st).model
          (clear_data st).historical_data = (.noData, (clear_data st).model)) := by
  constructor
  · intro pf m cps hinv
    have hnil : cps.filter Entry.isValidNumeric = [] := by
      rw [List.filter_eq_nil_iff]
      intro a ha
      simp [hinv a ha]
    have h0 : validNumbers cps = [] := by
      rw [validNumbers, hnil, List.map_nil]
    refine ⟨?_, ?_⟩ <;> simp [predict_aviator_outcome, h0, replyPred]
  · intro st pf
    exact ⟨rfl, by simp [clear_data, predict_aviator_outcome, validNumbers,
      replyPred]⟩

/-- C6 witness: the no-valid-data half applied to a ledger holding only the
malformed entry "abc". -/
theorem spec_c6_witness :
    predict_aviator_outcome pfZero ⟨[]⟩ [Entry.raw "abc"] =
      (.noData, (⟨[]⟩ : Model)) ∧
    replyPred (predict_aviator_outcome pfZero ⟨[]⟩ [Entry.raw "abc"]).1 =
      none :=
  spec_c6.1 pfZero ⟨[]⟩ [Entry.raw "abc"] (by decide)

/-- C7 counterexample: the dispatch pattern for the feedback handler is
case-sensitive — neither "YES" nor "No" matches it, so they are not
accepted as feedback. -/
theorem spec_c7_counterexample :
    feedbackRegexMatch "YES" = false ∧ feedbackRegexMatch "No" = false := by
  decide

/-- C7 amended: the feedback dispatch pattern accepts exactly the lowercase
literal tokens "yes" and "no"; the update function itself compares the
token case-insensitively, and a token that is neither "yes" nor "no" after
lowercasing is rejected as invalid and only logged, with no ledger or model
mutation. -/
theorem spec_c7_amended :
    (∀ s : String, feedbackRegexMatch s = true ↔ (s = "yes" ∨ s = "no")) ∧
    (∀ (f : String) (a : ℚ) (l : List Entry) (m : Model),
        pyLower f ≠ "yes" → pyLower f ≠ "no" →
        update_model_with_feedback (some f) a l m = .ok (l, m)) := by
  constructor
  · intro s
    simp [feedbackRegexMatch]
  · intro f a l m hy hn
    simp [update_model_with_feedback, hy, hn]

/-- C7 witness: the invalid token "maybe" is only logged and changes
nothing. -/
theorem spec_c7_witness :
    update_model_with_feedback (some "maybe") 1 [] ⟨[]⟩ =
      .ok ([], (⟨[]⟩ : Model)) :=
  spec_c7_amended.2 "maybe" 1 [] ⟨[]⟩ (by decide) (by decide)

/-- The session state after the concrete run behind the C8 counterexample:
predict on "2, 3", feedback "no", actual value "4". -/
def c8State : BotState :=
  { historical_data := [Entry.raw "2", Entry.raw "3", Entry.num 4],
    feedback_data := [], predicted_value := some 0, feedback := some "no",
    model := ⟨[[(2, 3)], [(2, 3), (3, 4)]]⟩ }

/-- C8 counterexample: after a resolved feedback cycle (predict on "2, 3",
feedback "no", actual value "4" accepted and processed) the pending
prediction record is NOT cleared, so a subsequent feedback token finds a
recent prediction and prompts for an actual value instead of reporting
none. -/
theorem spec_c8_counterexample :
    process_actual_value "4"
        (process_feedback "no" (process_crash_points pfZero "2, 3" initState)).2 =
      .ok (.thanks, c8State) ∧
    c8State.predicted_value = some 0 ∧
    (process_feedback "yes" c8State).1 = .askActual := by
  refine ⟨by decide, rfl, rfl⟩

/-- C8 amended: the pending prediction record is overwritten by each new
prediction, but it is never cleared when a feedback cycle is resolved: the
actual-value handler preserves both `user_data` keys, so a subsequent
feedback token still finds the old prediction and asks for an actual value
rather than reporting that there is no recent prediction. -/
theorem spec_c8_amended :
    (∀ (pf : PredFun) (text : String) (st : BotState),
        (process_crash_points pf text st).predicted_value =
          replyPred (predict_aviator_outcome pf st.model
            (st.historical_data ++ (splitPoints text).map Entry.raw)).1) ∧
    (∀ (text : String) (st : BotState) (r : ActualReply) (st' : BotState),
        process_actual_value text st = .ok (r, st') →
        st'.predicted_value = st.predicted_value ∧
        st'.feedback = st.feedback) ∧
    (∀ (text : String) (st : BotState), st.predicted_value ≠ none →
        (process_feedback text st).1 = .askActual) := by
  refine ⟨fun pf text st => rfl, ?_, ?_⟩
  · intro text st r st' h
    by_cases hcond : (numericRegexMatch (String.mk (pyStrip text.data)) &&
        decide (0 < (pyFloat (String.mk (pyStrip text.data))).getD 0)) = true
    · simp only [process_actual_value, hcond, if_true] at h
      rcases hu : update_model_with_feedback st.feedback
          ((pyFloat (String.mk (pyStrip text.data))).getD 0)
          st.historical_data st.model with e | p
      · rw [hu] at h
        exact absurd h (by simp)
      · rw [hu] at h
        simp only [Except.ok.injEq, Prod.mk.injEq] at h
        rw [← h.2]
        exact ⟨rfl, rfl⟩
    · simp only [process_actual_value] at h
      rw [if_neg hcond] at h
      simp only [Except.ok.injEq, Prod.mk.injEq] at h
      rw [← h.2]
      exact ⟨rfl, rfl⟩
  · intro text st hp
    rcases hv : st.predicted_value with _ | v
    · exact absurd hv hp
    · simp [process_feedback, hv]

/-- C8 amended witness: a pending prediction makes the feedback handler ask
for the actual value. -/
theorem spec_c8_witness :
    (process_feedback "x"
        { historical_data := [], feedback_data := [],
          predicted_value := some 1, feedback := none, model := ⟨[]⟩ }).1 =
      .askActual :=
  spec_c8_amended.2.2 "x"
    { historical_data := [], feedback_data := [], predicted_value := some 1,
      feedback := none, model := ⟨[]⟩ } (by decide)

/-- C9 counterexample: with the bot token and channel identifier both
present and the model artifact identifier absent, initialization fails —
absence of the model artifact identifier alone is fatal too. -/
theorem spec_c9_counterexample :
    init_bot_succeeds (some "token") (some "channel") none = false := by
  decide

/-- C9 amended: initialization succeeds exactly when all three configured
values — bot token, channel identifier and model artifact identifier — are
present and nonempty; the absence of any one of them, the model artifact
identifier included, is fatal. -/
theorem spec_c9_amended (t c m : Option String) :
    init_bot_succeeds t c m = true ↔
      (truthy t = true ∧ truthy c = true ∧ truthy m = true) := by
  simp [init_bot_succeeds, and_assoc]

/-- C10: the corrective-feedback refit parses every ledger entry with an
unguarded `float()` and no numeric-pattern filter, and the bulk-append path
appends raw comma-split strings unfiltered; hence the reachable run that
enters "abc, 2, 3", gets a prediction, answers "no" and supplies the valid
actual value "4" hits an unhandled conversion error instead of fitting. -/
theorem spec_c10 :
    (process_crash_points pfZero "abc, 2, 3" initState).historical_data =
      [Entry.raw "abc", Entry.raw "2", Entry.raw "3"] ∧
    Entry.pyFloatVal (Entry.raw "abc") = none ∧
    process_actual_value "4"
        (process_feedback "no"
          (process_crash_points pfZero "abc, 2, 3" initState)).2 =
      .error .valueError := by
  refine ⟨by decide, by decide, by decide⟩

end AviatorBot
